import Mathlib

/-!
Verification of the Spotify Video Blocker traffic classifier.

The repository contains two implementations of the detector:
they are embedded here side by side.
The size-heuristic variant (file `src/unnamed/part_001`, the spec section 4.2
classifier with the confirmed-audio set and the content-length threshold)
is modelled at top level; the two-phase variant (`src/index.js`)
is modelled in the `TwoPhase` namespace.
Sets held in JavaScript `Set` objects are modelled as duplicate-free
`List String` values with an insert-if-absent operation `setAdd`;
the persisted `video_domains.json` file is modelled as the `storage`
field of the state (its JSON array of host names).
-/

/-! ## String utilities (JavaScript semantics) -/

/-- Boolean test that `p` is a prefix of the second list. -/
def isPrefixList : List Char → List Char → Bool
  | [], _ => true
  | _ :: _, [] => false
  | a :: as, b :: bs => a == b && isPrefixList as bs

/-- Boolean test that `pat` occurs contiguously inside the second list. -/
def hasSubstring (pat : List Char) : List Char → Bool
  | [] => pat.isEmpty
  | c :: cs => isPrefixList pat (c :: cs) || hasSubstring pat cs

/-- JavaScript `s.includes(pat)`: substring containment. -/
def containsSubstr (s pat : String) : Bool :=
  hasSubstring pat.data s.data

/-- JavaScript `toLowerCase` (ASCII, which is all the code compares). -/
def strLower (s : String) : String :=
  ⟨s.data.map Char.toLower⟩

/-- Boolean suffix test on strings, JavaScript `endsWith`. -/
def strEndsWith (s post : String) : Bool :=
  isPrefixList post.data.reverse s.data.reverse

/-- Decimal value of a digit list. -/
def digitsToNat (ds : List Char) : Nat :=
  ds.foldl (fun a c => a * 10 + (c.toNat - 48)) 0

/-- JavaScript `parseInt(s, 10)`: skip whitespace, optional sign, leading
decimal digits; `none` models the `NaN` result when no digits are found. -/
def jsParseInt (s : String) : Option Int :=
  let cs := s.data.dropWhile (fun c => c.isWhitespace)
  let signed : Bool × List Char :=
    match cs with
    | '-' :: rest => (true, rest)
    | '+' :: rest => (false, rest)
    | _ => (false, cs)
  let ds := signed.2.takeWhile (fun c => c.isDigit)
  if ds.isEmpty then none
  else if signed.1 then some (-(Int.ofNat (digitsToNat ds)))
  else some (Int.ofNat (digitsToNat ds))

/-! ## Shared data model -/

/-- The parsed pieces of a URL that the code inspects (`new URL(url)`). -/
structure UrlParts where
  hostname : String
  pathname : String
deriving DecidableEq

/-- A request URL: the raw text plus its parse result
(`parsed = none` models a URL on which `new URL` throws). -/
structure Url where
  raw : String
  parsed : Option UrlParts
deriving DecidableEq

/-- The parts of a network response the classifier reads: URL, HTTP status,
and the `content-type` / `content-length` headers (absent headers are
`none`). -/
structure Response where
  url : Url
  status : Nat
  contentType : Option String
  contentLength : Option String
deriving DecidableEq

/-- `utils.getDomain`: hostname of the URL, `"unknown"` on parse failure. -/
def getDomain (u : Url) : String :=
  match u.parsed with
  | some p => p.hostname
  | none => "unknown"

/-- Insert-if-absent, modelling `Set.add` on a duplicate-free list. -/
def setAdd (s : List String) (x : String) : List String :=
  if x ∈ s then s else x :: s

/-! ## Configuration of the size-heuristic variant (src/unnamed/part_001) -/

/-- `CONFIG.REFERENCE_VIDEO_DOMAINS`. -/
def REFERENCE_VIDEO_DOMAINS : List String :=
  ["video-fa.scdn.co", "video.spotifycdn.com", "video.akamaized.net",
   "video-ak.cdn.spotify.com", "video-ak.spotifycdn.com", "video-fa.sc",
   "video-akpcw.spotifycdn.com", "video-akpcw-cdn-spotify-com.akamaized.net",
   "video-ak.cdn.spotify.com.splitter-eip.akadns.net",
   "eip-ntt.video-ak.cdn.spotify.com.akahost.net",
   "video-fa.cdn.spotify.com", "video-fa-b.cdn.spotify.com"]

/-- `CONFIG.REFERENCE_AUDIO_DOMAINS` (declared in the source configuration
but never referenced by any code path). -/
def REFERENCE_AUDIO_DOMAINS : List String :=
  ["audio-fa.scdn.co", "audio.spotifycdn.com", "audio.akamaized.net",
   "audio-ak.cdn.spotify.com", "audio-ak.spotifycdn.com",
   "audio-akpcw.spotifycdn.com", "audio-akpcw-cdn-spotify-com.akamaized.net",
   "audio-ak.cdn.spotify.com.splitter-eip.akadns.net",
   "eip-ntt.audio-ak.cdn.spotify.com.akahost.net",
   "audio-fa.cdn.spotify.com", "audio-fa-b.cdn.spotify.com"]

/-- `CONFIG.IGNORED_DOMAINS` of the size-heuristic variant. -/
def IGNORED_DOMAINS : List String :=
  ["api-partner.spotify.com", "api.spotify.com", "accounts.spotify.com",
   "gue1-spclient.spotify.com", "sentry.io", "cookielaw.org",
   "google-analytics", "doubleclick.net", "analytics", "tracker",
   "telemetry", "log.spotify.com"]

/-- `CONFIG.DEFINITELY_NON_VIDEO_EXTENSIONS`. -/
def DEFINITELY_NON_VIDEO_EXTENSIONS : List String :=
  [".css", ".js", ".json", ".jpg", ".jpeg", ".png", ".gif", ".svg",
   ".woff", ".woff2", ".ttf", ".html", ".map", ".ico"]

/-- `CONFIG.ACCEPTED_VIDEO_MIME_TYPES` (identical list in both variants). -/
def ACCEPTED_VIDEO_MIME_TYPES : List String :=
  ["video/mp4", "video/webm", "video/ogg", "video/",
   "application/x-mpegurl", "application/vnd.apple.mpegurl",
   "application/dash+xml"]

/-- `CONFIG.VIDEO_SIZE_THRESHOLD_BYTES` = 50 * 1024 * 1024. -/
def VIDEO_SIZE_THRESHOLD_BYTES : Int := 50 * 1024 * 1024

/-! ## Predicates of the size-heuristic variant -/

/-- `utils.isDefinitelyNotVideoRequest`: the lowercased pathname ends with a
known non-media extension; parse failure yields `false`. -/
def isDefinitelyNotVideoRequest (u : Url) : Bool :=
  match u.parsed with
  | some p =>
      DEFINITELY_NON_VIDEO_EXTENSIONS.any
        (fun ext => strEndsWith (strLower p.pathname) ext)
  | none => false

/-- The lowercased `content-type` header, empty string when absent. -/
def responseMime (res : Response) : String :=
  strLower (res.contentType.getD "")

/-- MIME acceptance: case-insensitive substring match against the accepted
video MIME list. -/
def mimeMatches (ct : String) : Bool :=
  ACCEPTED_VIDEO_MIME_TYPES.any (fun t => containsSubstr ct t)

/-- `utils.isVideoResponse` of the size-heuristic variant: only status 200
and 206 are eligible, then the MIME check. -/
def isVideoResponse (res : Response) : Bool :=
  if res.status ≠ 200 ∧ res.status ≠ 206 then false
  else mimeMatches (responseMime res)

/-- The `content-length` header with the `|| "0"` default
(absent or empty header becomes `"0"`). -/
def effectiveContentLength (res : Response) : String :=
  match res.contentLength with
  | none => "0"
  | some h => if h = "" then "0" else h

/-- `contentLength > CONFIG.VIDEO_SIZE_THRESHOLD_BYTES` as computed by
`handleResponse`; an unparsable header gives `NaN` whose comparison is
false. -/
def contentLengthExceeds (res : Response) : Bool :=
  match jsParseInt (effectiveContentLength res) with
  | none => false
  | some n => decide (VIDEO_SIZE_THRESHOLD_BYTES < n)

/-! ## State and handlers of the size-heuristic variant -/

/-- The module-level mutable state of `src/unnamed/part_001` plus the
persisted JSON file contents (`storage`). -/
structure AppState where
  detectedDomains : List String
  knownAudioDomains : List String
  candidateVideoRequests : List String
  loggedThisSession : List String
  storage : List String
deriving DecidableEq

/-- Verdict vocabulary of the spec for the Response Classifier. -/
inductive Verdict where
  | inconclusive
  | confirmedVideo
  | confirmedAudio
deriving DecidableEq

/-- Verdict vocabulary of the spec for the Request Filter. -/
inductive RequestVerdict where
  | ignore
  | reject
  | candidate
deriving DecidableEq

/-- What the interception handler does with the request. -/
inductive ReqAction where
  | abort
  | cont
deriving DecidableEq

/-- `logDomain`: promote a domain into `detectedDomains`; a new domain is
immediately written to the persisted file (the write of
`[...detectedDomains]` enqueued on `domainWriteQueue`); the domain is
always marked logged for the session. -/
def logDomain (s : AppState) (domain : String) : AppState :=
  if domain ∈ s.detectedDomains then
    { s with loggedThisSession := setAdd s.loggedThisSession domain }
  else
    { s with
        detectedDomains := setAdd s.detectedDomains domain,
        storage := setAdd s.detectedDomains domain,
        loggedThisSession := setAdd s.loggedThisSession domain }

/-- Remove a URL from the candidate set (`candidateVideoRequests.delete`). -/
def clearCandidate (s : AppState) (url : String) : AppState :=
  { s with candidateVideoRequests := s.candidateVideoRequests.erase url }

/-- `handleRequest` of the size-heuristic variant: ignored-domain substring
check on the whole URL, then the non-media extension check, otherwise mark
as candidate. Every branch continues the request. The `RequestVerdict`
component labels the branch with the the spec vocabulary. -/
def handleRequest (s : AppState) (u : Url) :
    RequestVerdict × ReqAction × AppState :=
  if IGNORED_DOMAINS.any (fun d => containsSubstr u.raw d) then
    (RequestVerdict.ignore, ReqAction.cont, s)
  else if isDefinitelyNotVideoRequest u then
    (RequestVerdict.reject, ReqAction.cont, s)
  else
    (RequestVerdict.candidate, ReqAction.cont,
     { s with candidateVideoRequests := setAdd s.candidateVideoRequests u.raw })

/-- `handleResponse` of the size-heuristic variant, with the spec verdict
attached to each branch: non-candidates are untouched; a known audio host
short-circuits; a known video host is re-logged; an unknown host with an
eligible status and video MIME goes through the content-length
heuristic. -/
def handleResponse (s : AppState) (res : Response) : Verdict × AppState :=
  if res.url.raw ∈ s.candidateVideoRequests then
    if getDomain res.url ∈ s.knownAudioDomains then
      (Verdict.inconclusive, clearCandidate s res.url.raw)
    else if getDomain res.url ∈ s.detectedDomains then
      (Verdict.confirmedVideo,
       clearCandidate
         { s with loggedThisSession := setAdd s.loggedThisSession (getDomain res.url) }
         res.url.raw)
    else if isVideoResponse res then
      if contentLengthExceeds res then
        (Verdict.confirmedVideo,
         clearCandidate (logDomain s (getDomain res.url)) res.url.raw)
      else
        (Verdict.confirmedAudio,
         clearCandidate
           { s with knownAudioDomains := setAdd s.knownAudioDomains (getDomain res.url) }
           res.url.raw)
    else
      (Verdict.inconclusive, clearCandidate s res.url.raw)
  else
    (Verdict.inconclusive, s)

/-- `handleFailedRequest`: drop the URL from the candidate set. -/
def handleFailedRequest (s : AppState) (u : Url) : AppState :=
  { s with candidateVideoRequests := s.candidateVideoRequests.erase u.raw }

/-- `init` of the size-heuristic variant: load the persisted list, merge the
reference video domains, and write the combined set back; the audio set
starts empty. -/
def initState (persisted : List String) : AppState :=
  { detectedDomains := REFERENCE_VIDEO_DOMAINS.foldl setAdd (persisted.foldl setAdd []),
    knownAudioDomains := [],
    candidateVideoRequests := [],
    loggedThisSession := [],
    storage := REFERENCE_VIDEO_DOMAINS.foldl setAdd (persisted.foldl setAdd []) }

/-! ## Event system over the size-heuristic variant -/

/-- The three network event streams the page monitor reacts to. -/
inductive Event where
  | request (u : Url)
  | response (r : Response)
  | requestFailed (u : Url)

/-- One event-loop step. -/
def step (s : AppState) : Event → AppState
  | Event.request u => (handleRequest s u).2.2
  | Event.response r => (handleResponse s r).2
  | Event.requestFailed u => handleFailedRequest s u

/-- Run a list of events from a state. -/
def run (s : AppState) (es : List Event) : AppState :=
  es.foldl step s

/-- States reachable from initialization by event-loop steps. -/
inductive Reachable : AppState → Prop
  | init (persisted : List String) : Reachable (initState persisted)
  | step (s : AppState) (e : Event) : Reachable s → Reachable (step s e)

/-! ## The two-phase variant (src/index.js) -/

namespace TwoPhase

/-- `CONFIG.KNOWN_SPOTIFY_VIDEO_DOMAINS` of the two-phase variant. -/
def KNOWN_SPOTIFY_VIDEO_DOMAINS : List String :=
  ["video-fa.scdn.co", "video.spotifycdn.com", "video.akamaized.net",
   "video-ak.cdn.spotify.com", "video-fa.sc", "video-akpcw.spotifycdn.com",
   "video-akpcw-cdn-spotify-com.akamaized.net",
   "video-ak.cdn.spotify.com.splitter-eip.akadns.net",
   "eip-ntt.video-ak.cdn.spotify.com.akahost.net",
   "video-fa.cdn.spotify.com", "video-fa-b.cdn.spotify.com"]

/-- `CONFIG.REQUIRED_VIDEO_PATH_SEGMENTS`. -/
def REQUIRED_VIDEO_PATH_SEGMENTS : List String :=
  ["/segments/v1/", "/encodings/", "/profiles/"]

/-- `CONFIG.SKIP_DOMAINS`. -/
def SKIP_DOMAINS : List String :=
  ["api-partner.spotify.com", "api.spotify.com", "accounts.spotify.com",
   "gue1-spclient.spotify.com"]

/-- `CONFIG.IGNORE_DOMAINS`. -/
def IGNORE_DOMAINS : List String :=
  ["sentry.io", "cookielaw.org", "google-analytics", "doubleclick.net",
   "analytics", "tracker", "telemetry", "log.spotify.com"]

/-- The body of `CONFIG.VIDEO_EXTENSIONS_REGEX`,
`\.(mp4|webm|m3u8|mpd)(\?|$)` applied to the lowercased pathname: the
extension appears at the end or followed by a question mark. -/
def videoExtTest (lowerPath : String) : Bool :=
  [".mp4", ".webm", ".m3u8", ".mpd"].any
    (fun e => strEndsWith lowerPath e || containsSubstr lowerPath (e ++ "?"))

/-- `utils.isLikelyVideoRequest` of the two-phase variant. -/
def isLikelyVideoRequest (u : Url) : Bool :=
  match u.parsed with
  | none => false
  | some p =>
      if SKIP_DOMAINS.any (fun skip => containsSubstr p.hostname skip) then
        false
      else if !(KNOWN_SPOTIFY_VIDEO_DOMAINS.any
          (fun vd => containsSubstr p.hostname vd)) then
        false
      else if !(REQUIRED_VIDEO_PATH_SEGMENTS.any
          (fun seg => containsSubstr (strLower p.pathname) seg)) then
        false
      else
        videoExtTest (strLower p.pathname)

/-- `utils.isVideoResponse` of the two-phase variant. The source reads
`if (status < 200 or status >= 300) { if (status !== 206) return false }`
before the MIME check: the inner 206 test can only fire outside the 2xx
range, so every 2xx status reaches the MIME check. -/
def isVideoResponse (res : Response) : Bool :=
  if (res.status < 200 ∨ 300 ≤ res.status) ∧ res.status ≠ 206 then false
  else mimeMatches (responseMime res)

/-- The module-level mutable state of `src/index.js` plus the persisted
file contents. -/
structure State where
  detectedDomains : List String
  loggedThisSession : List String
  candidateVideoRequests : List String
  storage : List String
deriving DecidableEq

/-- `core.logDomain` of the two-phase variant: guard against empty or
`"unknown"` domains, persist on a genuinely new domain. -/
def logDomain (st : State) (domain : String) : State :=
  if domain = "" ∨ domain = "unknown" then st
  else if domain ∈ st.detectedDomains then
    { st with loggedThisSession := setAdd st.loggedThisSession domain }
  else
    { st with
        detectedDomains := setAdd st.detectedDomains domain,
        storage := setAdd st.detectedDomains domain,
        loggedThisSession := setAdd st.loggedThisSession domain }

/-- The `page.on("request")` interception handler of the two-phase variant:
a URL matching the ignore list is aborted; a likely video request is
stored as a candidate; everything is continued otherwise. -/
def handleRequest (cands : List String) (u : Url) :
    RequestVerdict × ReqAction × List String :=
  if IGNORE_DOMAINS.any (fun d => containsSubstr u.raw d) then
    (RequestVerdict.ignore, ReqAction.abort, cands)
  else if isLikelyVideoRequest u then
    (RequestVerdict.candidate, ReqAction.cont, setAdd cands u.raw)
  else
    (RequestVerdict.reject, ReqAction.cont, cands)

/-- The `page.on("response")` handler of the two-phase variant: untouched
unless the URL is a candidate; a video-looking response logs the domain;
the candidate entry is removed. -/
def handleResponse (st : State) (res : Response) : State :=
  if res.url.raw ∈ st.candidateVideoRequests then
    let st1 := if isVideoResponse res then logDomain st (getDomain res.url) else st
    { st1 with candidateVideoRequests := st1.candidateVideoRequests.erase res.url.raw }
  else st

end TwoPhase

/-! ## Concrete fixtures -/

/-- A state with every set empty. -/
def emptyState : AppState :=
  { detectedDomains := [], knownAudioDomains := [],
    candidateVideoRequests := [], loggedThisSession := [], storage := [] }

/-- An empty state of the two-phase variant. -/
def emptyState2 : TwoPhase.State :=
  { detectedDomains := [], loggedThisSession := [],
    candidateVideoRequests := [], storage := [] }

/-- A video request URL from a host unknown to every configured list. -/
def urlNew : Url :=
  { raw := "https://media-new.example.com/clip.mp4",
    parsed := some { hostname := "media-new.example.com", pathname := "/clip.mp4" } }

/-- A state in which `urlNew` is an active candidate. -/
def candState : AppState :=
  { emptyState with candidateVideoRequests := [urlNew.raw] }

/-- A large video response for `urlNew`. -/
def resBig : Response :=
  { url := urlNew, status := 200, contentType := some "video/mp4",
    contentLength := some "60000000" }

/-- A status-201 response with a video MIME type. -/
def res201 : Response :=
  { url := urlNew, status := 201, contentType := some "video/mp4",
    contentLength := some "0" }

/-- A status-404 response with a video MIME type. -/
def res404 : Response :=
  { url := urlNew, status := 404, contentType := some "video/mp4",
    contentLength := none }

/-- A video-MIME response with no `content-length` header. -/
def resNoLength : Response :=
  { url := urlNew, status := 206, contentType := some "video/mp4",
    contentLength := none }

/-- A candidate URL from an unseen host used to reach an audio-classified
state. -/
def urlSmall : Url :=
  { raw := "https://small.example.com/frag.mp4",
    parsed := some { hostname := "small.example.com", pathname := "/frag.mp4" } }

/-- A small video-MIME response for `urlSmall`. -/
def resSmall : Response :=
  { url := urlSmall, status := 200, contentType := some "video/mp4",
    contentLength := some "512" }

/-- A reachable state in which `small.example.com` is confirmed audio. -/
def stateAudio : AppState :=
  step (step (initState []) (Event.request urlSmall)) (Event.response resSmall)

/-- A URL on a tracking host matched by the ignore lists. -/
def urlTracker : Url :=
  { raw := "https://tracker.example.com/pixel",
    parsed := some { hostname := "tracker.example.com", pathname := "/pixel" } }

/-- A style-sheet URL on a reference video domain. -/
def urlCss : Url :=
  { raw := "https://video.spotifycdn.com/theme.css",
    parsed := some { hostname := "video.spotifycdn.com", pathname := "/theme.css" } }

/-- A style-sheet URL on a reference video domain whose raw text also
matches the ignore-list entry `analytics`. -/
def urlCssIgnored : Url :=
  { raw := "https://video.spotifycdn.com/analytics.css",
    parsed := some { hostname := "video.spotifycdn.com", pathname := "/analytics.css" } }

/-- A state in which `audio-fa.scdn.co` is already confirmed audio. -/
def stateConflict : AppState :=
  { emptyState with knownAudioDomains := ["audio-fa.scdn.co"] }

/-! ## Helper lemmas: substring containment -/

lemma isPrefixList_iff (p : List Char) : ∀ s : List Char,
    isPrefixList p s = true ↔ ∃ t, s = p ++ t := by
  induction p with
  | nil =>
      intro s
      simp only [isPrefixList, List.nil_append, true_iff]
      exact ⟨s, rfl⟩
  | cons a as ih =>
      intro s
      cases s with
      | nil =>
          simp only [isPrefixList, Bool.false_eq_true, false_iff]
          rintro ⟨t, ht⟩
          cases ht
      | cons b bs =>
          rw [isPrefixList, Bool.and_eq_true, beq_iff_eq, ih]
          constructor
          · rintro ⟨rfl, t, rfl⟩
            exact ⟨t, rfl⟩
          · rintro ⟨t, ht⟩
            rw [List.cons_append] at ht
            injection ht with h1 h2
            exact ⟨h1.symm, t, h2⟩

lemma hasSubstring_iff (p : List Char) : ∀ s : List Char,
    hasSubstring p s = true ↔ ∃ l r, s = l ++ (p ++ r) := by
  intro s
  induction s with
  | nil =>
      rw [hasSubstring]
      cases p with
      | nil =>
          simp only [List.isEmpty_nil, true_iff]
          exact ⟨[], [], rfl⟩
      | cons a as =>
          simp only [List.isEmpty_cons, Bool.false_eq_true, false_iff]
          rintro ⟨l, r, hl⟩
          cases l with
          | nil => cases hl
          | cons x xs => cases hl
  | cons c cs ih =>
      rw [hasSubstring, Bool.or_eq_true, isPrefixList_iff, ih]
      constructor
      · rintro (⟨t, ht⟩ | ⟨l, r, hr⟩)
        · exact ⟨[], t, by simpa using ht⟩
        · exact ⟨c :: l, r, by simp [hr]⟩
      · rintro ⟨l, r, hr⟩
        cases l with
        | nil => exact Or.inl ⟨r, by simpa using hr⟩
        | cons x xs =>
            rw [List.cons_append] at hr
            injection hr with h1 h2
            exact Or.inr ⟨xs, r, h2⟩

lemma containsSubstr_trans (a b c : String)
    (h1 : containsSubstr b a = true) (h2 : containsSubstr c b = true) :
    containsSubstr c a = true := by
  unfold containsSubstr at h1 h2 ⊢
  rw [hasSubstring_iff] at h1 h2 ⊢
  obtain ⟨l1, r1, hb⟩ := h1
  obtain ⟨l2, r2, hc⟩ := h2
  refine ⟨l2 ++ l1, r1 ++ r2, ?_⟩
  rw [hc, hb]
  simp [List.append_assoc]

/-! ## Helper lemmas: set operations -/

lemma mem_setAdd {x y : String} {s : List String} :
    x ∈ setAdd s y ↔ x = y ∨ x ∈ s := by
  unfold setAdd
  split_ifs with h
  · constructor
    · exact Or.inr
    · rintro (rfl | hx)
      · exact h
      · exact hx
  · exact List.mem_cons

lemma self_mem_setAdd {y : String} {s : List String} : y ∈ setAdd s y :=
  mem_setAdd.mpr (Or.inl rfl)

lemma mem_foldl_setAdd (l : List String) : ∀ (init : List String) (x : String),
    x ∈ l.foldl setAdd init ↔ x ∈ init ∨ x ∈ l := by
  induction l with
  | nil =>
      intro init x
      simp
  | cons a as ih =>
      intro init x
      rw [List.foldl_cons, ih, mem_setAdd, List.mem_cons]
      tauto

/-! ## Helper lemmas: state invariants of the size-heuristic variant -/

/-- Invariant of the classifier state: a confirmed-audio host is never a
detected video host, and the persisted file only holds detected video
hosts. -/
def ClassifierInv (s : AppState) : Prop :=
  (∀ d, d ∈ s.knownAudioDomains → d ∉ s.detectedDomains) ∧
  (∀ d, d ∈ s.storage → d ∈ s.detectedDomains)

lemma inv_initState (l : List String) : ClassifierInv (initState l) := by
  constructor
  · intro d hd
    cases hd
  · intro d hd
    exact hd

lemma inv_handleRequest (s : AppState) (u : Url) (h : ClassifierInv s) :
    ClassifierInv (handleRequest s u).2.2 := by
  unfold handleRequest
  split_ifs <;> exact h

lemma logDomain_inv (s : AppState) (dom : String)
    (hdom : dom ∉ s.knownAudioDomains) (h : ClassifierInv s) : ClassifierInv (logDomain s dom) := by
  unfold logDomain
  split_ifs with hdet
  · exact h
  · constructor
    · intro d hd hmem
      rcases mem_setAdd.mp hmem with rfl | hmem'
      · exact hdom hd
      · exact h.1 d hd hmem'
    · intro d hd
      exact hd

lemma inv_handleResponse (s : AppState) (res : Response) (h : ClassifierInv s) :
    ClassifierInv (handleResponse s res).2 := by
  unfold handleResponse clearCandidate
  split_ifs with hc ha hd hv hb
  · exact h
  · exact h
  · exact logDomain_inv s (getDomain res.url) ha h
  · constructor
    · intro d hdm hmem
      rcases mem_setAdd.mp hdm with rfl | hdm'
      · exact hd hmem
      · exact h.1 d hdm' hmem
    · exact h.2
  · exact h
  · exact h

lemma inv_step (s : AppState) (e : Event) (h : ClassifierInv s) : ClassifierInv (step s e) := by
  cases e with
  | request u => exact inv_handleRequest s u h
  | response r => exact inv_handleResponse s r h
  | requestFailed u => exact h

lemma reachable_inv {s : AppState} (hs : Reachable s) : ClassifierInv s := by
  induction hs with
  | init l => exact inv_initState l
  | step s e _ ih => exact inv_step s e ih

/-! ## Helper lemmas: monotonicity of the audio set -/

lemma audio_logDomain (s : AppState) (dom : String) :
    (logDomain s dom).knownAudioDomains = s.knownAudioDomains := by
  unfold logDomain
  split_ifs <;> rfl

lemma audio_mono_handleResponse (s : AppState) (res : Response) {d : String}
    (hd : d ∈ s.knownAudioDomains) :
    d ∈ (handleResponse s res).2.knownAudioDomains := by
  unfold handleResponse clearCandidate
  split_ifs with hc ha hdet hv hb
  · exact hd
  · exact hd
  · show d ∈ (logDomain s (getDomain res.url)).knownAudioDomains
    rw [audio_logDomain]
    exact hd
  · exact mem_setAdd.mpr (Or.inr hd)
  · exact hd
  · exact hd

lemma audio_mono_step (s : AppState) (e : Event) {d : String}
    (hd : d ∈ s.knownAudioDomains) : d ∈ (step s e).knownAudioDomains := by
  cases e with
  | request u =>
      show d ∈ (handleRequest s u).2.2.knownAudioDomains
      unfold handleRequest
      split_ifs <;> exact hd
  | response r => exact audio_mono_handleResponse s r hd
  | requestFailed u => exact hd

lemma detected_no_gain_step (s : AppState) (e : Event) {d : String}
    (hdAud : d ∈ s.knownAudioDomains) (hdDet : d ∉ s.detectedDomains) :
    d ∉ (step s e).detectedDomains := by
  cases e with
  | request u =>
      show d ∉ (handleRequest s u).2.2.detectedDomains
      unfold handleRequest
      split_ifs <;> exact hdDet
  | response r =>
      show d ∉ (handleResponse s r).2.detectedDomains
      unfold handleResponse clearCandidate
      split_ifs with hc ha hdet hv hb
      · exact hdDet
      · exact hdDet
      · show d ∉ (logDomain s (getDomain r.url)).detectedDomains
        unfold logDomain
        rw [if_neg hdet]
        intro hmem
        rcases mem_setAdd.mp hmem with rfl | hmem'
        · exact ha hdAud
        · exact hdDet hmem'
      · exact hdDet
      · exact hdDet
      · exact hdDet
  | requestFailed u => exact hdDet

lemma run_cons (s : AppState) (e : Event) (es : List Event) :
    run s (e :: es) = run (step s e) es := rfl

lemma audio_persists_run (s : AppState) (es : List Event) {d : String}
    (h : d ∈ s.knownAudioDomains ∧ d ∉ s.detectedDomains) :
    d ∈ (run s es).knownAudioDomains ∧ d ∉ (run s es).detectedDomains := by
  induction es generalizing s with
  | nil => exact h
  | cons e es ih =>
      rw [run_cons]
      exact ih (step s e)
        ⟨audio_mono_step s e h.1, detected_no_gain_step s e h.1 h.2⟩

lemma audio_mono_run (s : AppState) (es : List Event) {d : String}
    (hd : d ∈ s.knownAudioDomains) : d ∈ (run s es).knownAudioDomains := by
  induction es generalizing s with
  | nil => exact hd
  | cons e es ih =>
      rw [run_cons]
      exact ih (step s e) (audio_mono_step s e hd)

/-! ## Helper lemmas: branch characterizations of handleResponse -/

lemma verdict_inconclusive_of_audio (s : AppState) (res : Response)
    (hd : getDomain res.url ∈ s.knownAudioDomains) :
    (handleResponse s res).1 = Verdict.inconclusive := by
  unfold handleResponse
  split_ifs <;> rfl

lemma isVideoResponse_of_eligible (res : Response)
    (hstatus : res.status = 200 ∨ res.status = 206)
    (hmime : mimeMatches (responseMime res) = true) :
    isVideoResponse res = true := by
  have hcond : ¬(res.status ≠ 200 ∧ res.status ≠ 206) := by
    rcases hstatus with h | h
    · intro hk
      exact hk.1 h
    · intro hk
      exact hk.2 h
  unfold isVideoResponse
  rw [if_neg hcond]
  exact hmime

lemma handleResponse_unseen (s : AppState) (res : Response)
    (hcand : res.url.raw ∈ s.candidateVideoRequests)
    (haud : getDomain res.url ∉ s.knownAudioDomains)
    (hdet : getDomain res.url ∉ s.detectedDomains)
    (hv : isVideoResponse res = true) :
    handleResponse s res =
      if contentLengthExceeds res then
        (Verdict.confirmedVideo,
         clearCandidate (logDomain s (getDomain res.url)) res.url.raw)
      else
        (Verdict.confirmedAudio,
         clearCandidate
           { s with knownAudioDomains := setAdd s.knownAudioDomains (getDomain res.url) }
           res.url.raw) := by
  unfold handleResponse
  rw [if_pos hcand, if_neg haud, if_neg hdet, if_pos hv]

/-! ## Claims -/

/-- Claim C1: for a completed response whose URL is an active candidate,
with eligible status (200 or 206), an accepted video MIME content-type, and
a host in neither confirmed set, the content-length heuristic decides: above
the threshold the verdict is confirmed-video and the host joins the video
set; otherwise the verdict is confirmed-audio and the host joins the audio
set. -/
theorem C1_size_heuristic (s : AppState) (res : Response)
    (hcand : res.url.raw ∈ s.candidateVideoRequests)
    (haud : getDomain res.url ∉ s.knownAudioDomains)
    (hdet : getDomain res.url ∉ s.detectedDomains)
    (hstatus : res.status = 200 ∨ res.status = 206)
    (hmime : mimeMatches (responseMime res) = true) :
    (contentLengthExceeds res = true →
      (handleResponse s res).1 = Verdict.confirmedVideo ∧
      getDomain res.url ∈ (handleResponse s res).2.detectedDomains) ∧
    (contentLengthExceeds res = false →
      (handleResponse s res).1 = Verdict.confirmedAudio ∧
      getDomain res.url ∈ (handleResponse s res).2.knownAudioDomains) := by
  have hv := isVideoResponse_of_eligible res hstatus hmime
  rw [handleResponse_unseen s res hcand haud hdet hv]
  constructor
  · intro hb
    rw [if_pos hb]
    refine ⟨rfl, ?_⟩
    show getDomain res.url ∈ (logDomain s (getDomain res.url)).detectedDomains
    unfold logDomain
    rw [if_neg hdet]
    exact self_mem_setAdd
  · intro hb
    rw [if_neg (by simp [hb])]
    refine ⟨rfl, ?_⟩
    exact self_mem_setAdd

/-- Witness for C1 at a concrete large response from an unseen host. -/
theorem C1_size_heuristic_witness :
    (contentLengthExceeds resBig = true →
      (handleResponse candState resBig).1 = Verdict.confirmedVideo ∧
      getDomain resBig.url ∈ (handleResponse candState resBig).2.detectedDomains) ∧
    (contentLengthExceeds resBig = false →
      (handleResponse candState resBig).1 = Verdict.confirmedAudio ∧
      getDomain resBig.url ∈ (handleResponse candState resBig).2.knownAudioDomains) :=
  C1_size_heuristic candState resBig (by decide) (by decide) (by decide)
    (Or.inl rfl) (by decide)

/-- Claim C2: once a host is in the confirmed-audio set of a reachable
state, it stays there and never enters the confirmed-video set under any
further events, and every response from it gets verdict inconclusive. -/
theorem C2_once_audio (s : AppState) (hs : Reachable s) (d : String)
    (hd : d ∈ s.knownAudioDomains) :
    (∀ es : List Event,
      d ∈ (run s es).knownAudioDomains ∧ d ∉ (run s es).detectedDomains) ∧
    (∀ es : List Event, ∀ res : Response, getDomain res.url = d →
      (handleResponse (run s es) res).1 = Verdict.inconclusive) := by
  have hdet : d ∉ s.detectedDomains := (reachable_inv hs).1 d hd
  constructor
  · intro es
    exact audio_persists_run s es ⟨hd, hdet⟩
  · intro es res hres
    apply verdict_inconclusive_of_audio
    rw [hres]
    exact (audio_persists_run s es ⟨hd, hdet⟩).1

/-- Witness for C2 at a reachable state where `small.example.com` was
classified audio by the size heuristic. -/
theorem C2_once_audio_witness :
    "small.example.com" ∈ (run stateAudio []).knownAudioDomains ∧
    "small.example.com" ∉ (run stateAudio []).detectedDomains :=
  (C2_once_audio stateAudio
      (Reachable.step _ _ (Reachable.step _ _ (Reachable.init [])))
      "small.example.com" (by decide)).1 []

/-- Claim C3 (amended): the size-heuristic predicate rejects every status
other than 200 and 206, and an unseen-host response with such a status gets
verdict inconclusive; the two-phase predicate however only rejects statuses
outside the 2xx range (its inner 206 test is dead code), so the original
claim holds of it only for non-2xx statuses such as 404. -/
theorem C3_status_eligibility (s : AppState) (res : Response)
    (h1 : res.status ≠ 200) (h2 : res.status ≠ 206) :
    isVideoResponse res = false ∧
    (getDomain res.url ∉ s.knownAudioDomains →
      getDomain res.url ∉ s.detectedDomains →
      (handleResponse s res).1 = Verdict.inconclusive) ∧
    (res.status < 200 ∨ 300 ≤ res.status → TwoPhase.isVideoResponse res = false) := by
  have hfalse : isVideoResponse res = false := by
    unfold isVideoResponse
    rw [if_pos ⟨h1, h2⟩]
  refine ⟨hfalse, ?_, ?_⟩
  · intro haud hdet
    unfold handleResponse
    split_ifs with hc ha hb
    · simp [hfalse] at ha
    · simp [hfalse] at ha
    · rfl
    · rfl
  · intro h3
    unfold TwoPhase.isVideoResponse
    rw [if_pos ⟨h3, h2⟩]

/-- Counterexample to C3 as frozen: the two-phase `isVideoResponse` accepts
a status-201 response with a video MIME type. -/
theorem C3_counterexample :
    res201.status ≠ 200 ∧ res201.status ≠ 206 ∧
    TwoPhase.isVideoResponse res201 = true := by decide

/-- Witness for C3 at a concrete 404 response. -/
theorem C3_status_eligibility_witness :
    isVideoResponse res404 = false ∧
    (getDomain res404.url ∉ emptyState.knownAudioDomains →
      getDomain res404.url ∉ emptyState.detectedDomains →
      (handleResponse emptyState res404).1 = Verdict.inconclusive) ∧
    (res404.status < 200 ∨ 300 ≤ res404.status →
      TwoPhase.isVideoResponse res404 = false) :=
  C3_status_eligibility emptyState res404 (by decide) (by decide)

/-- Claim C4 (amended): a request whose host matches an ignore-list entry
by substring containment (the host occurring in the raw URL text, as for
every URL a browser emits) is never inserted into the Candidate Tracker by
either variant; the two-phase variant aborts it, while the size-heuristic
variant continues it without tracking (no abort). -/
theorem C4_ignored_requests (cands : List String) (s : AppState) (u : Url)
    (d : String) (hd : d ∈ TwoPhase.IGNORE_DOMAINS)
    (hhost : containsSubstr (getDomain u) d = true)
    (hwf : containsSubstr u.raw (getDomain u) = true) :
    ((TwoPhase.handleRequest cands u).1 = RequestVerdict.ignore ∧
     (TwoPhase.handleRequest cands u).2.1 = ReqAction.abort ∧
     (TwoPhase.handleRequest cands u).2.2 = cands) ∧
    ((handleRequest s u).1 = RequestVerdict.ignore ∧
     (handleRequest s u).2.1 = ReqAction.cont ∧
     (handleRequest s u).2.2.candidateVideoRequests = s.candidateVideoRequests) := by
  have hraw : containsSubstr u.raw d = true :=
    containsSubstr_trans d (getDomain u) u.raw hhost hwf
  have hsub : ∀ x ∈ TwoPhase.IGNORE_DOMAINS, x ∈ IGNORED_DOMAINS := by decide
  have hany2 : TwoPhase.IGNORE_DOMAINS.any (fun x => containsSubstr u.raw x) = true := by
    rw [List.any_eq_true]
    exact ⟨d, hd, hraw⟩
  have hany1 : IGNORED_DOMAINS.any (fun x => containsSubstr u.raw x) = true := by
    rw [List.any_eq_true]
    exact ⟨d, hsub d hd, hraw⟩
  constructor
  · unfold TwoPhase.handleRequest
    rw [if_pos hany2]
    exact ⟨rfl, rfl, rfl⟩
  · unfold handleRequest
    rw [if_pos hany1]
    exact ⟨rfl, rfl, rfl⟩

/-- Counterexample to C4 as frozen: the size-heuristic request handler
continues (does not abort) a request to a tracking host. -/
theorem C4_counterexample :
    containsSubstr (getDomain urlTracker) "tracker" = true ∧
    "tracker" ∈ IGNORED_DOMAINS ∧
    ¬(handleRequest emptyState urlTracker).2.1 = ReqAction.abort := by decide

/-- Witness for C4 at a concrete tracking URL. -/
theorem C4_ignored_requests_witness :
    ((TwoPhase.handleRequest [] urlTracker).1 = RequestVerdict.ignore ∧
     (TwoPhase.handleRequest [] urlTracker).2.1 = ReqAction.abort ∧
     (TwoPhase.handleRequest [] urlTracker).2.2 = []) ∧
    ((handleRequest emptyState urlTracker).1 = RequestVerdict.ignore ∧
     (handleRequest emptyState urlTracker).2.1 = ReqAction.cont ∧
     (handleRequest emptyState urlTracker).2.2.candidateVideoRequests =
       emptyState.candidateVideoRequests) :=
  C4_ignored_requests [] emptyState urlTracker "tracker" (by decide)
    (by decide) (by decide)

/-- Claim C5: a response whose URL is not an active candidate mutates no
state in either variant: the whole state (video set, audio set, candidate
set, session log, persisted storage) is returned unchanged. -/
theorem C5_no_candidate_no_mutation (s : AppState) (t : TwoPhase.State)
    (res : Response)
    (h1 : res.url.raw ∉ s.candidateVideoRequests)
    (h2 : res.url.raw ∉ t.candidateVideoRequests) :
    (handleResponse s res).2 = s ∧ TwoPhase.handleResponse t res = t := by
  constructor
  · unfold handleResponse
    rw [if_neg h1]
  · unfold TwoPhase.handleResponse
    rw [if_neg h2]

/-- Witness for C5 at a concrete non-candidate response. -/
theorem C5_no_candidate_no_mutation_witness :
    (handleResponse emptyState resBig).2 = emptyState ∧
    TwoPhase.handleResponse emptyState2 resBig = emptyState2 :=
  C5_no_candidate_no_mutation emptyState emptyState2 resBig (by decide) (by decide)

/-- Claim C6 (amended): a request whose parsed path ends with `.css` or any
other configured non-media extension is never inserted into the Candidate
Tracker and never gets verdict candidate, for any host (in particular a
reference video domain); its verdict is reject provided the raw URL does
not also match the ignore list, in which case it is ignore. -/
theorem C6_nonmedia_never_candidate (s : AppState) (u : Url) (p : UrlParts)
    (ext : String) (hp : u.parsed = some p)
    (hext : ext ∈ DEFINITELY_NON_VIDEO_EXTENSIONS)
    (hend : strEndsWith (strLower p.pathname) ext = true) :
    (handleRequest s u).1 ≠ RequestVerdict.candidate ∧
    (handleRequest s u).2.2.candidateVideoRequests = s.candidateVideoRequests ∧
    (IGNORED_DOMAINS.any (fun d => containsSubstr u.raw d) = false →
      (handleRequest s u).1 = RequestVerdict.reject) := by
  have hnot : isDefinitelyNotVideoRequest u = true := by
    unfold isDefinitelyNotVideoRequest
    rw [hp, List.any_eq_true]
    exact ⟨ext, hext, hend⟩
  unfold handleRequest
  by_cases hig : IGNORED_DOMAINS.any (fun d => containsSubstr u.raw d) = true
  · rw [if_pos hig]
    refine ⟨fun h => RequestVerdict.noConfusion h, rfl, ?_⟩
    intro hf
    rw [hig] at hf
    exact Bool.noConfusion hf
  · rw [if_neg hig, if_pos hnot]
    exact ⟨fun h => RequestVerdict.noConfusion h, rfl, fun _ => rfl⟩

/-- Counterexample to C6 as frozen: a `.css` path on a reference video
domain whose URL text also contains the ignore-list entry `analytics` gets
verdict ignore, not reject. -/
theorem C6_counterexample :
    strEndsWith (strLower "/analytics.css") ".css" = true ∧
    "video.spotifycdn.com" ∈ REFERENCE_VIDEO_DOMAINS ∧
    (handleRequest emptyState urlCssIgnored).1 = RequestVerdict.ignore ∧
    ¬(handleRequest emptyState urlCssIgnored).1 = RequestVerdict.reject := by
  decide

/-- Witness for C6 at a `.css` URL on a reference video domain. -/
theorem C6_nonmedia_never_candidate_witness :
    (handleRequest emptyState urlCss).1 ≠ RequestVerdict.candidate ∧
    (handleRequest emptyState urlCss).2.2.candidateVideoRequests =
      emptyState.candidateVideoRequests ∧
    (IGNORED_DOMAINS.any (fun d => containsSubstr urlCss.raw d) = false →
      (handleRequest emptyState urlCss).1 = RequestVerdict.reject) :=
  C6_nonmedia_never_candidate emptyState urlCss
    { hostname := "video.spotifycdn.com", pathname := "/theme.css" }
    ".css" rfl (by decide) (by decide)

/-- Claim C7 (code bug): the Registry promotion `logDomain` performs no
removal from the conflicting set — promoting a host that sits in the
confirmed-audio set leaves it in BOTH sets. Evaluated at the failing
input `audio-fa.scdn.co`. -/
theorem C7_promote_keeps_conflict :
    "audio-fa.scdn.co" ∈ stateConflict.knownAudioDomains ∧
    "audio-fa.scdn.co" ∈
      (logDomain stateConflict "audio-fa.scdn.co").detectedDomains ∧
    "audio-fa.scdn.co" ∈
      (logDomain stateConflict "audio-fa.scdn.co").knownAudioDomains := by
  decide

/-- Claim C8: promoting a previously-unknown domain writes the updated
registry to persisted storage at once: afterwards the persisted list
contains the new domain, contains everything previously persisted, and
equals the current video-domain snapshot. -/
theorem C8_persist_roundtrip (s : AppState) (hs : Reachable s) (d : String)
    (hd : d ∉ s.detectedDomains) :
    d ∈ (logDomain s d).storage ∧
    (∀ x, x ∈ s.storage → x ∈ (logDomain s d).storage) ∧
    (logDomain s d).storage = (logDomain s d).detectedDomains := by
  have hstor := (reachable_inv hs).2
  unfold logDomain
  rw [if_neg hd]
  exact ⟨self_mem_setAdd,
    fun x hx => mem_setAdd.mpr (Or.inr (hstor x hx)), rfl⟩

/-- Witness for C8: promoting a fresh domain from the initial state. -/
theorem C8_persist_roundtrip_witness :
    "new-video.example.com" ∈
      (logDomain (initState []) "new-video.example.com").storage ∧
    (∀ x, x ∈ (initState []).storage →
      x ∈ (logDomain (initState []) "new-video.example.com").storage) ∧
    (logDomain (initState []) "new-video.example.com").storage =
      (logDomain (initState []) "new-video.example.com").detectedDomains :=
  C8_persist_roundtrip (initState []) (Reachable.init []) "new-video.example.com"
    (by decide)

/-- Claim C9: for an eligible video-MIME candidate response from an unseen
host, a missing, empty, or unparsable `content-length` header — and one
exactly equal to the threshold, since the comparison is strict — yields
verdict confirmed-audio, and the host stays in the audio set under all
further events of the run. -/
theorem C9_default_zero_strict (s : AppState) (res : Response)
    (hcand : res.url.raw ∈ s.candidateVideoRequests)
    (haud : getDomain res.url ∉ s.knownAudioDomains)
    (hdet : getDomain res.url ∉ s.detectedDomains)
    (hstatus : res.status = 200 ∨ res.status = 206)
    (hmime : mimeMatches (responseMime res) = true)
    (hcl : res.contentLength = none ∨ res.contentLength = some "" ∨
      jsParseInt (effectiveContentLength res) = none ∨
      jsParseInt (effectiveContentLength res) = some VIDEO_SIZE_THRESHOLD_BYTES) :
    (handleResponse s res).1 = Verdict.confirmedAudio ∧
    ∀ es : List Event,
      getDomain res.url ∈ (run (handleResponse s res).2 es).knownAudioDomains := by
  have hv := isVideoResponse_of_eligible res hstatus hmime
  have hb : contentLengthExceeds res = false := by
    rcases hcl with h | h | h | h
    · unfold contentLengthExceeds effectiveContentLength
      rw [h]
      decide
    · unfold contentLengthExceeds effectiveContentLength
      rw [h]
      decide
    · unfold contentLengthExceeds
      rw [h]
    · unfold contentLengthExceeds
      rw [h]
      decide
  rw [handleResponse_unseen s res hcand haud hdet hv, if_neg (by simp [hb])]
  refine ⟨rfl, ?_⟩
  intro es
  exact audio_mono_run _ es self_mem_setAdd

/-- Witness for C9 at a concrete response with no content-length header. -/
theorem C9_default_zero_strict_witness :
    (handleResponse candState resNoLength).1 = Verdict.confirmedAudio ∧
    ∀ es : List Event,
      getDomain resNoLength.url ∈
        (run (handleResponse candState resNoLength).2 es).knownAudioDomains :=
  C9_default_zero_strict candState resNoLength (by decide) (by decide)
    (by decide) (Or.inr rfl) (by decide) (Or.inl rfl)

lemma initState_detected (l : List String) :
    (initState l).detectedDomains =
      REFERENCE_VIDEO_DOMAINS.foldl setAdd (l.foldl setAdd []) := by
  simp only [initState]

/-- Claim C10: the confirmed-audio set starts every run empty; init seeds
the video set with exactly the persisted list merged with the reference
video list; the reference audio list is never loaded into the audio set;
and in every reachable state no audio-classified host is ever persisted. -/
theorem C10_audio_never_persisted :
    (∀ l : List String, (initState l).knownAudioDomains = []) ∧
    (∀ (l : List String) (d : String),
      d ∈ (initState l).detectedDomains ↔ d ∈ l ∨ d ∈ REFERENCE_VIDEO_DOMAINS) ∧
    (∀ l : List String, ∀ d ∈ REFERENCE_AUDIO_DOMAINS,
      d ∉ (initState l).knownAudioDomains) ∧
    (∀ s : AppState, Reachable s → ∀ d ∈ s.knownAudioDomains, d ∉ s.storage) := by
  refine ⟨fun l => rfl, ?_, ?_, ?_⟩
  · intro l d
    rw [initState_detected, mem_foldl_setAdd, mem_foldl_setAdd]
    simp
  · intro l d _
    show d ∉ ([] : List String)
    simp
  · intro s hs d hd hstor
    exact (reachable_inv hs).1 d hd ((reachable_inv hs).2 d hstor)

/-- Witness for C10 at concrete initial states. -/
theorem C10_audio_never_persisted_witness :
    "persisted.example.com" ∈
      (initState ["persisted.example.com"]).detectedDomains ∧
    (∀ d ∈ (initState []).knownAudioDomains, d ∉ (initState []).storage) :=
  ⟨(C10_audio_never_persisted.2.1 ["persisted.example.com"]
      "persisted.example.com").mpr (Or.inl (by decide)),
   C10_audio_never_persisted.2.2.2 (initState []) (Reachable.init [])⟩
